import Mathlib

/-!
Shallow embedding of the tunnelfy core (Go sources under internal/proxy and
internal/ssh) and proofs about the behaviour its specification claims.

The embedding translates the pure content of the Go functions:
machine integers become `Nat` with explicit `% 2^32` where uint32 overflow
matters, Go maps become association lists observed only through lookup,
the sharded route table keeps its 256-way structure, and the effectful
parts of `HandleConn` (net.Listen, sync.Map bookkeeping, route updates,
request replies) become explicit state passing over a `ServerState`.
-/

namespace Tunnelfy

/-- Big-endian 32-bit read of the first four bytes of a byte list
(model of `binary.BigEndian.Uint32(payload[0:4])`; callers check length first). -/
def beUint32 (l : List Nat) : Nat :=
  (l.take 4).foldl (fun a b => a * 256 + b) 0

/-- Model of `parseForwardPort` (server.go:20-32): payload is
uint32 addr_len | addr_bytes | uint32 port; fails if the payload is too
short. Returns the requested port. -/
def parseForwardPort (payload : List Nat) : Option Nat :=
  if payload.length < 4 then none
  else
    let addrLen := beUint32 payload
    if payload.length < 4 + addrLen + 4 then none
    else some (beUint32 (payload.drop (4 + addrLen)))

/-- Shallow model of Go's `url.Parse`: it rejects strings containing ASCII
control characters and otherwise succeeds; a parsed URL is represented by
its raw string. On every string this program feeds it
(`http://127.0.0.1:<port>`) it succeeds, as the real parser does. -/
def urlParse (raw : String) : Option String :=
  if raw.data.all (fun c => !Nat.ble c.toNat 31) then some raw else none

/-- Model of Go's `strings.HasPrefix` on the characters of the strings
(byte-identical on the ASCII data this program handles). -/
def strStartsWith (s pre : String) : Bool := pre.data.isPrefixOf s.data

/-- Model of Go's `strings.HasSuffix` on the characters of the strings. -/
def strEndsWith (s suf : String) : Bool := suf.data.isSuffixOf s.data

/-- Model of `UpstreamEntry` (proxy.go:25-29). The pre-built ReverseProxy
closure and the creation timestamp carry no information the claims observe;
the parsed target URL is kept (as its string). -/
structure UpstreamEntry where
  targetURL : String
deriving DecidableEq

/-- Number of shards (proxy.go:14, `routeShards = 256`). -/
def routeShards : Nat := 256

/-- Byte values of a hostname: the character codes of its characters, which
coincide with Go's string bytes on ASCII hostnames. -/
def strBytes (s : String) : List Nat := s.data.map Char.toNat

/-- One step of the FNV-like mix in `shardIdx` (proxy.go:51):
`h = h*16777619 ^ uint32(key[i])` in uint32 arithmetic. -/
def fnvMix (h b : Nat) : Nat := Nat.xor (h * 16777619 % 4294967296) b

/-- The full fold of `shardIdx` over the key bytes, starting from 0. -/
def fnvHash (bytes : List Nat) : Nat := bytes.foldl fnvMix 0

/-- Model of `ShardedRouteManager.shardIdx` (proxy.go:48-54):
`uint8(h % routeShards)` of the FNV-like hash of the key bytes. -/
def shardIdx (key : String) : Fin routeShards :=
  ⟨fnvHash (strBytes key) % routeShards, Nat.mod_lt _ (by decide)⟩

/-- Model of `ShardedRouteManager` (proxy.go:32-36): 256 shards, each a
map from hostname to entry (association list observed through lookup). -/
structure RouteManager where
  shards : Fin routeShards → List (String × UpstreamEntry)

/-- Model of `NewShardedRouteManager` (proxy.go:39-45): all shards empty. -/
def emptyManager : RouteManager := ⟨fun _ => []⟩

/-- Go map assignment `s.m[host] = entry`: replace any binding for the key. -/
def mapInsert (k : String) (v : UpstreamEntry) (l : List (String × UpstreamEntry)) :
    List (String × UpstreamEntry) :=
  (k, v) :: l.filter (fun p => p.1 != k)

/-- Go map `delete(s.m, host)`. -/
def mapDelete (k : String) (l : List (String × UpstreamEntry)) :
    List (String × UpstreamEntry) :=
  l.filter (fun p => p.1 != k)

/-- The target normalisation inside `AddRoute` (proxy.go:58-65): keep the
target when it starts with `http://` or `https://`, else prepend `http://`. -/
def normalizeTarget (target : String) : String :=
  if strStartsWith target "http://" || strStartsWith target "https://" then target
  else "http://" ++ target

/-- Model of `AddRoute` (proxy.go:57-120): normalise the target, parse it
as a URL (failure propagates as the only error), build the entry, and
overwrite the binding in the shard selected by `shardIdx host`. -/
def addRoute (m : RouteManager) (host target : String) : Option RouteManager :=
  match urlParse (normalizeTarget target) with
  | none => none
  | some u =>
      some ⟨Function.update m.shards (shardIdx host)
        (mapInsert host ⟨u⟩ (m.shards (shardIdx host)))⟩

/-- Model of `RemoveRoute` (proxy.go:123-132): delete the key from the
shard selected by `shardIdx host`. -/
def removeRoute (m : RouteManager) (host : String) : RouteManager :=
  ⟨Function.update m.shards (shardIdx host)
    (mapDelete host (m.shards (shardIdx host)))⟩

/-- Model of `GetEntry` (proxy.go:135-142): read the shard selected by
`shardIdx host`. -/
def getEntry (m : RouteManager) (host : String) : Option UpstreamEntry :=
  (m.shards (shardIdx host)).lookup host

/-- Responses the `FastProxyHandler` can produce, as far as the claims
observe them. -/
inductive HTTPResponse where
  | badRequest (body : String)
  | notFound
  | proxied (e : UpstreamEntry)
deriving DecidableEq

/-- Host normalisation in `FastProxyHandler` (proxy.go:166-169): truncate
the Host header at the first `:` if any. -/
def hostKey (hostHeader : String) : String :=
  ⟨hostHeader.data.takeWhile (fun c => c != ':')⟩

/-- Model of `FastProxyHandler` (proxy.go:163-193): strip the port from the
Host header, reject hosts outside the zone with 400 `invalid host`, look up
the route, 404 on a miss, else delegate to the entry's proxy. -/
def fastProxyHandler (m : RouteManager) (zone : String) (hostHeader : String) :
    HTTPResponse :=
  let host := hostKey hostHeader
  if zone != "" && !(strEndsWith host ("." ++ zone)) then .badRequest "invalid host"
  else
    match getEntry m host with
    | none => .notFound
    | some e => .proxied e

/-- A TCP listener the SSH server created (`net.Listen` in server.go:131).
`id` distinguishes listeners; `isOpen` tracks whether `Close` has run. -/
structure ListenerRec where
  id : Nat
  port : Nat
  isOpen : Bool
deriving DecidableEq

/-- One entry of `activeTunnelM` (server.go:39): key `user:port` mapped to
the published hostname. `session` is a ghost field recording which SSH
session stored the entry; the code itself keeps no such information, which
is what claim C8 is about. -/
structure TunnelEntry where
  key : String
  host : String
  session : Nat
deriving DecidableEq

/-- State of the SSH server shared by every connection: the route manager,
the single `activeTunnelM` map, and the listeners created so far. -/
structure ServerState where
  routes : RouteManager
  activeTunnels : List TunnelEntry
  listeners : List ListenerRec
  nextListenerId : Nat

/-- Server state at startup: empty table, no tunnels, no listeners. -/
def initialState : ServerState := ⟨emptyManager, [], [], 0⟩

/-- The bookkeeping key `username + ":" + portString` (server.go:154, 241). -/
def tunnelKey (user : String) (port : Nat) : String :=
  user ++ ":" ++ Nat.repr port

/-- `sync.Map.Store` (server.go:155): replace any entry with the same key. -/
def storeTunnel (k host : String) (sess : Nat) (l : List TunnelEntry) :
    List TunnelEntry :=
  ⟨k, host, sess⟩ :: l.filter (fun e => e.key != k)

/-- `sync.Map.Load` (server.go:242). -/
def loadTunnel (k : String) (l : List TunnelEntry) : Option TunnelEntry :=
  l.find? (fun e => e.key == k)

/-- `sync.Map.Delete` (server.go:246). -/
def deleteTunnel (k : String) (l : List TunnelEntry) : List TunnelEntry :=
  l.filter (fun e => e.key != k)

/-- `listener.Close()`: mark the listener with this id closed. -/
def closeListener (lid : Nat) (ls : List ListenerRec) : List ListenerRec :=
  ls.map (fun l => if l.id == lid then { l with isOpen := false } else l)

/-- A global-request reply: the boolean passed to `req.Reply` and the reply
payload bytes. -/
abbrev Reply := Bool × List Nat

/-- Big-endian bytes of `uint32(n)` (server.go:158-159,
`binary.BigEndian.PutUint32`). -/
def be32Bytes (n : Nat) : List Nat :=
  [n % 4294967296 / 16777216 % 256, n % 4294967296 / 65536 % 256,
   n % 4294967296 / 256 % 256, n % 4294967296 % 256]

/-- Model of the `tcpip-forward` arm of `HandleConn` (server.go:119-230).
`bindRes` models the outcome of `net.Listen("tcp", "127.0.0.1:"+port)`:
`none` is a bind failure, `some bp` a listener bound on port `bp` (the
requested port when it was nonzero, an OS-assigned one when it was 0).
On parse or bind failure: reply false, nothing changes. Otherwise record
the listener, install the route `user.zone -> 127.0.0.1:bp`; on install
failure close the listener and reply false; on success store the
bookkeeping entry and reply true with the 4-byte big-endian bound port. -/
def handleTcpipForward (st : ServerState) (sess : Nat) (user zone : String)
    (payload : List Nat) (bindRes : Option Nat) : ServerState × Reply :=
  match parseForwardPort payload with
  | none => (st, (false, []))
  | some _ =>
      match bindRes with
      | none => (st, (false, []))
      | some bp =>
          let lid := st.nextListenerId
          let st1 : ServerState :=
            { st with listeners := st.listeners ++ [⟨lid, bp, true⟩],
                      nextListenerId := lid + 1 }
          let fullHost := user ++ "." ++ zone
          let routeTarget := "127.0.0.1:" ++ Nat.repr bp
          match addRoute st1.routes fullHost routeTarget with
          | none =>
              ({ st1 with listeners := closeListener lid st1.listeners },
               (false, []))
          | some rm =>
              ({ st1 with routes := rm,
                          activeTunnels :=
                            storeTunnel (tunnelKey user bp) fullHost sess
                              st1.activeTunnels },
               (true, be32Bytes bp))

/-- Model of the `cancel-tcpip-forward` arm of `HandleConn`
(server.go:232-251): parse the port, look up `user:port`; when present
remove the recorded hostname's route and erase the entry; reply true in
either case. Malformed payload: reply false, nothing changes. The
listener is not touched. -/
def handleCancelForward (st : ServerState) (user : String)
    (payload : List Nat) : ServerState × Reply :=
  match parseForwardPort payload with
  | none => (st, (false, []))
  | some p =>
      match loadTunnel (tunnelKey user p) st.activeTunnels with
      | some e =>
          ({ st with routes := removeRoute st.routes e.host,
                     activeTunnels :=
                       deleteTunnel (tunnelKey user p) st.activeTunnels },
           (true, []))
      | none => (st, (true, []))

/-- Model of the disconnect cleanup at the end of `HandleConn`
(server.go:258-271): range over the whole shared `activeTunnelM`, and for
every key with the string `username + ":"` at its front remove the
recorded route and delete the entry. Listeners are not touched. -/
def disconnectCleanup (st : ServerState) (user : String) : ServerState :=
  { st with
    routes := (st.activeTunnels.filter
        (fun e => strStartsWith e.key (user ++ ":"))).foldl
        (fun rm e => removeRoute rm e.host) st.routes,
    activeTunnels := st.activeTunnels.filter
        (fun e => !strStartsWith e.key (user ++ ":")) }

/-- What a per-connection handler can do with an accepted TCP connection. -/
inductive AcceptorAction where
  | dialTCP (addr : String)
  | openForwardedTcpip (bindAddr : String) (port : Nat)
deriving DecidableEq

/-- The acceptor goroutine's handling of each accepted connection
(server.go:188-197): `net.Dial("tcp", upstreamHost+":"+upstreamPort)`. -/
def acceptorPerConn (upstreamHost upstreamPort : String) : AcceptorAction :=
  .dialTCP (upstreamHost ++ ":" ++ upstreamPort)

/-- The acceptor as actually spawned (server.go:230): the upstream is the
hard-coded pair `("localhost", "3000")`. -/
def spawnedAcceptorAction : AcceptorAction := acceptorPerConn "localhost" "3000"

/-- Tail of a scheme: after the leading letter, scheme characters up to a
mandatory `:`. Used by the spec-side normalisation only. -/
def schemeTail : List Char → Bool
  | [] => false
  | c :: rest => if c == ':' then true else
      (c.isAlphanum || c == '+' || c == '-' || c == '.') && schemeTail rest

/-- Whether the string begins with a URI scheme (`ALPHA *(ALPHA / DIGIT /
"+" / "-" / ".") ":"`). Used by the spec-side normalisation only. -/
def hasScheme (t : String) : Bool :=
  match t.data with
  | [] => false
  | c :: rest => c.isAlpha && schemeTail rest

/-- Modelled from the spec: the target normalisation the spec's words
describe, `normalize(t)` = "t with `http://` prepended when t lacks a
scheme" (spec 8, Lookup-after-install; spec 4.A install). Kept separate
from `normalizeTarget`, which is what the code does. -/
def specNormalizeTarget (t : String) : String :=
  if hasScheme t then t else "http://" ++ t

/-- The shard-partition invariant: every binding sits in the shard its key
hashes to (so a host is never stored in more than one shard). -/
def shardInv (m : RouteManager) : Prop :=
  ∀ j : Fin routeShards, ∀ pr ∈ m.shards j, shardIdx pr.1 = j

/-! ## Helper lemmas -/

/-- Successful URL parsing returns the input string. -/
theorem urlParse_eq_some {r u : String} (h : urlParse r = some u) : u = r := by
  unfold urlParse at h
  split at h
  · exact (Option.some.injEq _ _ ▸ h).symm
  · exact absurd h (by simp)

/-- Looking up a key after deleting it from a shard misses. -/
theorem lookup_mapDelete (k : String) (l : List (String × UpstreamEntry)) :
    (mapDelete k l).lookup k = none := by
  unfold mapDelete
  induction l with
  | nil => rfl
  | cons p rest ih =>
      obtain ⟨a, b⟩ := p
      by_cases hpk : a = k
      · rw [List.filter_cons_of_neg (by simp [hpk])]
        exact ih
      · rw [List.filter_cons_of_pos (by simp [hpk])]
        have hk : (k == a) = false := by simp [Ne.symm hpk]
        simp only [List.lookup, hk]
        exact ih

/-- Looking up a key right after inserting it hits the new entry. -/
theorem lookup_mapInsert (k : String) (v : UpstreamEntry)
    (l : List (String × UpstreamEntry)) : (mapInsert k v l).lookup k = some v := by
  simp [mapInsert, List.lookup]

/-- A successful `addRoute host target` makes `getEntry host` return the
entry holding the normalised target. -/
theorem getEntry_addRoute {m m' : RouteManager} {host target : String}
    (h : addRoute m host target = some m') :
    getEntry m' host = some ⟨normalizeTarget target⟩ := by
  unfold addRoute at h
  cases hu : urlParse (normalizeTarget target) with
  | none => rw [hu] at h; exact absurd h (by simp)
  | some u =>
      rw [hu] at h
      cases h
      have := urlParse_eq_some hu
      subst this
      unfold getEntry
      simp only [Function.update_same]
      exact lookup_mapInsert _ _ _

/-- After `removeRoute host`, `getEntry host` misses. -/
theorem getEntry_removeRoute (m : RouteManager) (host : String) :
    getEntry (removeRoute m host) host = none := by
  unfold getEntry removeRoute
  simp only [Function.update_same]
  exact lookup_mapDelete _ _

/-- Loading the key just stored finds the new entry. -/
theorem loadTunnel_storeTunnel (k host : String) (sess : Nat)
    (l : List TunnelEntry) :
    loadTunnel k (storeTunnel k host sess l) = some ⟨k, host, sess⟩ := by
  simp [loadTunnel, storeTunnel, List.find?]

/-- Filtering out entries keyed `k` does not change what a search for a
different key `k'` finds. -/
theorem find?_filter_ne {k k' : String} (l : List TunnelEntry) (hne : k' ≠ k) :
    (l.filter (fun e => e.key != k)).find? (fun e => e.key == k') =
      l.find? (fun e => e.key == k') := by
  induction l with
  | nil => rfl
  | cons e rest ih =>
      by_cases hek : e.key = k
      · have hkb : (e.key == k') = false := by simp [hek, Ne.symm hne]
        rw [List.filter_cons_of_neg (by simp [hek])]
        simp only [List.find?, hkb]
        exact ih
      · rw [List.filter_cons_of_pos (by simp [hek])]
        by_cases hk' : e.key = k'
        · have hkb : (e.key == k') = true := by simp [hk']
          simp only [List.find?, hkb]
        · have hkb : (e.key == k') = false := by simp [hk']
          simp only [List.find?, hkb]
          exact ih

/-- Storing under one key does not change what loading another key finds. -/
theorem loadTunnel_storeTunnel_ne {k k' : String} (host : String) (sess : Nat)
    (l : List TunnelEntry) (hne : k' ≠ k) :
    loadTunnel k' (storeTunnel k host sess l) = loadTunnel k' l := by
  unfold loadTunnel storeTunnel
  have hkb : ((⟨k, host, sess⟩ : TunnelEntry).key == k') = false := by
    simp [Ne.symm hne]
  simp only [List.find?, hkb]
  exact find?_filter_ne l hne

/-- Deleting one key does not change what loading another key finds. -/
theorem loadTunnel_deleteTunnel_ne {k k' : String} (l : List TunnelEntry)
    (hne : k' ≠ k) :
    loadTunnel k' (deleteTunnel k l) = loadTunnel k' l :=
  find?_filter_ne l hne

/-- Strings with equal character data are equal. -/
theorem str_eq_of_data_eq {a b : String} (h : a.data = b.data) : a = b := by
  cases a; cases b; exact congrArg String.mk h

/-- Distinct decimal port strings give distinct bookkeeping keys for the
same user. -/
theorem tunnelKey_ne (u : String) {p1 p2 : Nat}
    (h : Nat.repr p1 ≠ Nat.repr p2) : tunnelKey u p1 ≠ tunnelKey u p2 := by
  intro heq
  apply h
  apply str_eq_of_data_eq
  have hd := congrArg String.data heq
  simp only [tunnelKey, String.data_append] at hd
  exact List.append_cancel_left hd

/-- Closing a listener id that no listener in the list has is a no-op. -/
theorem closeListener_all_ne {lid : Nat} {ls : List ListenerRec}
    (h : ls.all (fun l => l.id != lid) = true) : closeListener lid ls = ls := by
  induction ls with
  | nil => rfl
  | cons l rest ih =>
      simp only [List.all_cons, Bool.and_eq_true, bne_iff_ne, ne_eq] at h
      have hid : (l.id == lid) = false := by simp [h.1]
      have htail := ih h.2
      unfold closeListener at htail ⊢
      rw [List.map_cons, htail, hid]
      rfl

/-- Idempotence of the Host-header truncation. -/
theorem takeWhile_idem {α : Type} (p : α → Bool) (l : List α) :
    (l.takeWhile p).takeWhile p = l.takeWhile p := by
  induction l with
  | nil => rfl
  | cons a rest ih =>
      by_cases ha : p a
      · simp [List.takeWhile_cons, ha, ih]
      · simp [List.takeWhile_cons, ha]

/-- Truncating an already truncated Host header changes nothing. -/
theorem hostKey_idem (s : String) : hostKey (hostKey s) = hostKey s := by
  unfold hostKey
  exact congrArg String.mk (takeWhile_idem _ _)

/-- A payload too short for its declared address length fails to parse. -/
theorem parseForwardPort_eq_none {payload : List Nat}
    (hm : payload.length < 4 ∨ payload.length < 4 + beUint32 payload + 4) :
    parseForwardPort payload = none := by
  unfold parseForwardPort
  by_cases h4 : payload.length < 4
  · simp [h4]
  · have hL : payload.length < 4 + beUint32 payload + 4 := hm.resolve_left h4
    simp [h4, hL]

/-! ## Claim theorems -/

/-- C1: the claim says destroying an Active Forward (by cancel or by
session end) removes its route AND closes its TCP listener, leaving no
open listener once sessions have ended. The code removes the route and
the bookkeeping entry but never closes the listener: after a forward on
port 8080 is cancelled, and likewise after its session's disconnect
cleanup, the route lookup misses and the bookkeeping is empty, yet the
created listener is still recorded open. -/
theorem forward_teardown_keeps_listener_open :
    getEntry (handleTcpipForward initialState 1 "alice" "example.test"
        [0, 0, 0, 0, 0, 0, 31, 144] (some 8080)).1.routes "alice.example.test"
      = some ⟨"http://127.0.0.1:8080"⟩ ∧
    (handleTcpipForward initialState 1 "alice" "example.test"
        [0, 0, 0, 0, 0, 0, 31, 144] (some 8080)).1.listeners
      = [⟨0, 8080, true⟩] ∧
    (getEntry (handleCancelForward
        (handleTcpipForward initialState 1 "alice" "example.test"
          [0, 0, 0, 0, 0, 0, 31, 144] (some 8080)).1 "alice"
        [0, 0, 0, 0, 0, 0, 31, 144]).1.routes "alice.example.test" = none ∧
      (handleCancelForward
        (handleTcpipForward initialState 1 "alice" "example.test"
          [0, 0, 0, 0, 0, 0, 31, 144] (some 8080)).1 "alice"
        [0, 0, 0, 0, 0, 0, 31, 144]).1.activeTunnels = [] ∧
      (handleCancelForward
        (handleTcpipForward initialState 1 "alice" "example.test"
          [0, 0, 0, 0, 0, 0, 31, 144] (some 8080)).1 "alice"
        [0, 0, 0, 0, 0, 0, 31, 144]).1.listeners = [⟨0, 8080, true⟩]) ∧
    (getEntry (disconnectCleanup
        (handleTcpipForward initialState 1 "alice" "example.test"
          [0, 0, 0, 0, 0, 0, 31, 144] (some 8080)).1 "alice").routes
        "alice.example.test" = none ∧
      (disconnectCleanup
        (handleTcpipForward initialState 1 "alice" "example.test"
          [0, 0, 0, 0, 0, 0, 31, 144] (some 8080)).1 "alice").activeTunnels
        = [] ∧
      (disconnectCleanup
        (handleTcpipForward initialState 1 "alice" "example.test"
          [0, 0, 0, 0, 0, 0, 31, 144] (some 8080)).1 "alice").listeners
        = [⟨0, 8080, true⟩]) := by
  decide

/-- C2: for every accepted TCP connection the acceptor spawned by
`HandleConn` dials the hard-coded address `localhost:3000`; it never opens
a `forwarded-tcpip` channel back over the SSH session, contrary to the
behaviour the specification mandates. -/
theorem acceptor_dials_instead_of_channel_open :
    spawnedAcceptorAction = .dialTCP "localhost:3000" ∧
    ∀ (a : String) (p : Nat),
      (spawnedAcceptorAction == .openForwardedTcpip a p) = false := by
  exact ⟨by decide, fun a p => rfl⟩

/-- C3 counterexample: with target `ftp://x`, which has a scheme, the
spec-side `normalize` leaves it unchanged, but a successful install stores
`http://ftp://x`, so the looked-up entry does not match `normalize(t)`. -/
theorem lookup_after_install_spec_normalize_cex :
    ((addRoute emptyManager "a.example.test" "ftp://x").bind
        (fun m => getEntry m "a.example.test")) = some ⟨"http://ftp://x"⟩ ∧
    specNormalizeTarget "ftp://x" = "ftp://x" ∧
    (("http://ftp://x" : String) == specNormalizeTarget "ftp://x") = false := by
  decide

/-- C3 amended: after a successful `install(h, t)` a lookup of `h` returns
an entry whose target URL is `t` with `http://` prepended unless `t`
already starts with `http://` or `https://` (the code's normalisation),
and after `remove(h)` a lookup of `h` misses. -/
theorem lookup_after_install_amended (m : RouteManager) (h t : String)
    (hok : (addRoute m h t).isSome = true) :
    (addRoute m h t).bind (fun m' => getEntry m' h) = some ⟨normalizeTarget t⟩ ∧
    ∀ m2 : RouteManager, getEntry (removeRoute m2 h) h = none := by
  constructor
  · cases ha : addRoute m h t with
    | none => rw [ha] at hok; exact absurd hok (by simp)
    | some m' => exact getEntry_addRoute ha
  · exact fun m2 => getEntry_removeRoute m2 h

/-- C3 amended, witness at a concrete input. -/
theorem lookup_after_install_amended_witness :
    (addRoute emptyManager "a.example.test" "127.0.0.1:8080").isSome = true ∧
    ((addRoute emptyManager "a.example.test" "127.0.0.1:8080").bind
        (fun m' => getEntry m' "a.example.test")
      = some ⟨normalizeTarget "127.0.0.1:8080"⟩ ∧
      ∀ m2 : RouteManager,
        getEntry (removeRoute m2 "a.example.test") "a.example.test" = none) :=
  ⟨by decide, lookup_after_install_amended emptyManager "a.example.test"
    "127.0.0.1:8080" (by decide)⟩

/-- C5: the front door looks up the Host header truncated at the first
colon; with a non-empty zone a key that does not end in `"." + zone` gets
400 `invalid host` whatever the route table holds (no lookup can matter),
and a key inside the zone with no route gets 404. -/
theorem front_door_zone_and_miss_handling (m : RouteManager)
    (zone hostHeader : String) :
    fastProxyHandler m zone hostHeader
      = fastProxyHandler m zone (hostKey hostHeader) ∧
    (zone ≠ "" → strEndsWith (hostKey hostHeader) ("." ++ zone) = false →
      ∀ m2 : RouteManager,
        fastProxyHandler m2 zone hostHeader = .badRequest "invalid host") ∧
    ((zone = "" ∨ strEndsWith (hostKey hostHeader) ("." ++ zone) = true) →
      getEntry m (hostKey hostHeader) = none →
      fastProxyHandler m zone hostHeader = .notFound) := by
  refine ⟨?_, ?_, ?_⟩
  · unfold fastProxyHandler
    rw [hostKey_idem]
  · intro hz hsuf m2
    have hz' : (zone != "") = true := by simp [hz]
    simp [fastProxyHandler, hz', hsuf]
  · intro hz hmiss
    rcases hz with hz | hz
    · simp [fastProxyHandler, hz, hmiss]
    · simp [fastProxyHandler, hz, hmiss]

/-- C5 witness at concrete inputs. -/
theorem front_door_zone_and_miss_handling_witness :
    fastProxyHandler emptyManager "example.test" "ghost.example.test:8080"
      = .notFound ∧
    fastProxyHandler emptyManager "example.test" "foo.other.test"
      = .badRequest "invalid host" :=
  ⟨(front_door_zone_and_miss_handling emptyManager "example.test"
      "ghost.example.test:8080").2.2 (Or.inr (by decide)) (by decide),
   (front_door_zone_and_miss_handling emptyManager "example.test"
      "foo.other.test").2.1 (by decide) (by decide) emptyManager⟩

/-- C6: a `tcpip-forward` or `cancel-tcpip-forward` payload that is shorter
than 4 bytes, or shorter than 4 + L + 4 bytes for the declared address
length L, fails to parse; both handlers then reply false and return the
state unchanged: no listener, no route, no bookkeeping entry. -/
theorem malformed_forward_payload_no_side_effects (st : ServerState)
    (sess : Nat) (user zone : String) (payload : List Nat)
    (bindRes : Option Nat)
    (hm : payload.length < 4 ∨ payload.length < 4 + beUint32 payload + 4) :
    parseForwardPort payload = none ∧
    handleTcpipForward st sess user zone payload bindRes = (st, (false, [])) ∧
    handleCancelForward st user payload = (st, (false, [])) := by
  have hp := parseForwardPort_eq_none hm
  exact ⟨hp, by simp [handleTcpipForward, hp], by simp [handleCancelForward, hp]⟩

/-- C6 witness: a payload declaring a 5-byte address but carrying none. -/
theorem malformed_forward_payload_no_side_effects_witness :
    ([0, 0, 0, 5] : List Nat).length < 4 ∨
      ([0, 0, 0, 5] : List Nat).length < 4 + beUint32 [0, 0, 0, 5] + 4 ∧
    (parseForwardPort [0, 0, 0, 5] = none ∧
      handleTcpipForward initialState 1 "alice" "example.test" [0, 0, 0, 5]
        (some 80) = (initialState, (false, [])) ∧
      handleCancelForward initialState "alice" [0, 0, 0, 5]
        = (initialState, (false, []))) :=
  Or.inr ⟨by decide,
    malformed_forward_payload_no_side_effects initialState 1 "alice"
      "example.test" [0, 0, 0, 5] (some 80) (Or.inr (by decide))⟩

/-- C7: `cancel-tcpip-forward` with a well-formed payload for a
`(user, port)` pair that has no recorded forward replies true and leaves
the whole server state — routes and bookkeeping included — unchanged. -/
theorem cancel_unknown_forward_idempotent (st : ServerState) (user : String)
    (payload : List Nat) (p : Nat)
    (hp : parseForwardPort payload = some p)
    (habs : loadTunnel (tunnelKey user p) st.activeTunnels = none) :
    handleCancelForward st user payload = (st, (true, [])) := by
  simp [handleCancelForward, hp, habs]

/-- C7 witness: cancelling port 7 on a fresh server. -/
theorem cancel_unknown_forward_idempotent_witness :
    parseForwardPort [0, 0, 0, 0, 0, 0, 0, 7] = some 7 ∧
    loadTunnel (tunnelKey "alice" 7) initialState.activeTunnels = none ∧
    handleCancelForward initialState "alice" [0, 0, 0, 0, 0, 0, 0, 7]
      = (initialState, (true, [])) :=
  ⟨by decide, by decide,
    cancel_unknown_forward_idempotent initialState "alice"
      [0, 0, 0, 0, 0, 0, 0, 7] 7 (by decide) (by decide)⟩

/-- C8: the claim says teardown in one session never removes routes or
Active-Forward entries created by a different concurrent session. In the
code `activeTunnelM` is one map on the shared `SSHServer`: with user
`alice` holding forwards from session 1 (port 1001) and session 2
(port 1002), the disconnect cleanup run when session 1 ends deletes the
entry created by session 2 and removes the shared route as well. -/
theorem disconnect_teardown_crosses_sessions :
    (handleTcpipForward
        (handleTcpipForward initialState 1 "alice" "example.test"
          [0, 0, 0, 0, 0, 0, 3, 233] (some 1001)).1
        2 "alice" "example.test"
        [0, 0, 0, 0, 0, 0, 3, 234] (some 1002)).1.activeTunnels
      = [⟨"alice:1002", "alice.example.test", 2⟩,
         ⟨"alice:1001", "alice.example.test", 1⟩] ∧
    (disconnectCleanup
        (handleTcpipForward
          (handleTcpipForward initialState 1 "alice" "example.test"
            [0, 0, 0, 0, 0, 0, 3, 233] (some 1001)).1
          2 "alice" "example.test"
          [0, 0, 0, 0, 0, 0, 3, 234] (some 1002)).1 "alice").activeTunnels
      = [] ∧
    getEntry (disconnectCleanup
        (handleTcpipForward
          (handleTcpipForward initialState 1 "alice" "example.test"
            [0, 0, 0, 0, 0, 0, 3, 233] (some 1001)).1
          2 "alice" "example.test"
          [0, 0, 0, 0, 0, 0, 3, 234] (some 1002)).1 "alice").routes
      "alice.example.test" = none := by
  decide

/-- Shape of a `tcpip-forward` request with a parsed payload and a
successful bind: the handler is a case split on the install result. -/
theorem handleTcpipForward_parsed (st : ServerState) (sess : Nat)
    (user zone : String) (payload : List Nat) (p bp : Nat)
    (hp : parseForwardPort payload = some p) :
    handleTcpipForward st sess user zone payload (some bp) =
      match addRoute st.routes (user ++ "." ++ zone)
          ("127.0.0.1:" ++ Nat.repr bp) with
      | none =>
          ({ st with
              listeners := closeListener st.nextListenerId
                (st.listeners ++ [⟨st.nextListenerId, bp, true⟩]),
              nextListenerId := st.nextListenerId + 1 }, (false, []))
      | some rm =>
          ({ st with
              routes := rm,
              activeTunnels := storeTunnel (tunnelKey user bp)
                (user ++ "." ++ zone) sess st.activeTunnels,
              listeners := st.listeners ++ [⟨st.nextListenerId, bp, true⟩],
              nextListenerId := st.nextListenerId + 1 },
           (true, be32Bytes bp)) := by
  unfold handleTcpipForward
  rw [hp]

/-- C4: a well-formed `tcpip-forward` for port `p` that binds a listener on
port `bp` (`bp = p` when `p` is nonzero) installs the route
`user.zone -> 127.0.0.1:bp`, records the forward under the `(user, bp)`
bookkeeping key, and replies true with the 4-byte big-endian bound port;
if the install fails the bound listener is closed, the reply is false, and
neither a route nor a bookkeeping entry is recorded. -/
theorem tcpip_forward_request_behaviour (st : ServerState) (sess : Nat)
    (user zone : String) (payload : List Nat) (p bp : Nat)
    (hp : parseForwardPort payload = some p)
    (hbp : p ≠ 0 → bp = p)
    (hfresh : st.listeners.all (fun l => l.id != st.nextListenerId) = true) :
    ((addRoute st.routes (user ++ "." ++ zone)
        ("127.0.0.1:" ++ Nat.repr bp)).isSome = true →
      (handleTcpipForward st sess user zone payload (some bp)).2
        = (true, be32Bytes bp) ∧
      getEntry (handleTcpipForward st sess user zone payload (some bp)).1.routes
          (user ++ "." ++ zone)
        = some ⟨normalizeTarget ("127.0.0.1:" ++ Nat.repr bp)⟩ ∧
      loadTunnel (tunnelKey user bp)
          (handleTcpipForward st sess user zone payload (some bp)).1.activeTunnels
        = some ⟨tunnelKey user bp, user ++ "." ++ zone, sess⟩ ∧
      (handleTcpipForward st sess user zone payload (some bp)).1.listeners
        = st.listeners ++ [⟨st.nextListenerId, bp, true⟩] ∧
      (p ≠ 0 →
        (handleTcpipForward st sess user zone payload (some bp)).1.listeners
          = st.listeners ++ [⟨st.nextListenerId, p, true⟩])) ∧
    (addRoute st.routes (user ++ "." ++ zone)
        ("127.0.0.1:" ++ Nat.repr bp) = none →
      (handleTcpipForward st sess user zone payload (some bp)).2
        = (false, []) ∧
      (handleTcpipForward st sess user zone payload (some bp)).1.routes
        = st.routes ∧
      (handleTcpipForward st sess user zone payload (some bp)).1.activeTunnels
        = st.activeTunnels ∧
      (handleTcpipForward st sess user zone payload (some bp)).1.listeners
        = st.listeners ++ [⟨st.nextListenerId, bp, false⟩]) := by
  have heq := handleTcpipForward_parsed st sess user zone payload p bp hp
  cases haddR : addRoute st.routes (user ++ "." ++ zone)
      ("127.0.0.1:" ++ Nat.repr bp) with
  | none =>
      rw [haddR] at heq
      refine ⟨fun hok => absurd hok (by simp [haddR]), fun _ => ?_⟩
      rw [heq]
      refine ⟨rfl, rfl, rfl, ?_⟩
      show closeListener st.nextListenerId
          (st.listeners ++ [⟨st.nextListenerId, bp, true⟩])
        = st.listeners ++ [⟨st.nextListenerId, bp, false⟩]
      have h1 := closeListener_all_ne hfresh
      unfold closeListener at h1 ⊢
      rw [List.map_append, h1]
      simp
  | some rm =>
      rw [haddR] at heq
      refine ⟨fun _ => ?_,
        fun hnone => Option.noConfusion hnone⟩
      rw [heq]
      refine ⟨rfl, getEntry_addRoute haddR, loadTunnel_storeTunnel _ _ _ _,
        rfl, fun h0 => ?_⟩
      rw [hbp h0]

/-- C4 witness: user `alice`, zone `example.test`, requested port 8080,
bound on 8080, on a fresh server. -/
theorem tcpip_forward_request_behaviour_witness :
    parseForwardPort [0, 0, 0, 0, 0, 0, 31, 144] = some 8080 ∧
    (addRoute initialState.routes ("alice" ++ "." ++ "example.test")
        ("127.0.0.1:" ++ Nat.repr 8080)).isSome = true ∧
    ((handleTcpipForward initialState 1 "alice" "example.test"
        [0, 0, 0, 0, 0, 0, 31, 144] (some 8080)).2
      = (true, be32Bytes 8080) ∧
      getEntry (handleTcpipForward initialState 1 "alice" "example.test"
          [0, 0, 0, 0, 0, 0, 31, 144] (some 8080)).1.routes
          ("alice" ++ "." ++ "example.test")
        = some ⟨normalizeTarget ("127.0.0.1:" ++ Nat.repr 8080)⟩ ∧
      loadTunnel (tunnelKey "alice" 8080)
          (handleTcpipForward initialState 1 "alice" "example.test"
            [0, 0, 0, 0, 0, 0, 31, 144] (some 8080)).1.activeTunnels
        = some ⟨tunnelKey "alice" 8080, "alice" ++ "." ++ "example.test", 1⟩ ∧
      (handleTcpipForward initialState 1 "alice" "example.test"
          [0, 0, 0, 0, 0, 0, 31, 144] (some 8080)).1.listeners
        = initialState.listeners ++ [⟨initialState.nextListenerId, 8080, true⟩] ∧
      (8080 ≠ 0 →
        (handleTcpipForward initialState 1 "alice" "example.test"
            [0, 0, 0, 0, 0, 0, 31, 144] (some 8080)).1.listeners
          = initialState.listeners
              ++ [⟨initialState.nextListenerId, 8080, true⟩])) :=
  ⟨by decide, by decide,
    (tcpip_forward_request_behaviour initialState 1 "alice" "example.test"
      [0, 0, 0, 0, 0, 0, 31, 144] 8080 8080 (by decide) (fun _ => rfl)
      (by decide)).1 (by decide)⟩

/-- C9: shard selection is the pure fold `h = h*16777619 xor byte` in
uint32 arithmetic over the hostname bytes, reduced mod 256; it depends on
nothing but the bytes, always lands in [0, 256), install/remove/lookup all
address the shard it names (they leave every other shard untouched and
lookup reads exactly that shard), and no host is ever stored outside its
own shard. -/
theorem shard_selection_properties :
    (∀ h : String, (shardIdx h).val = fnvHash (strBytes h) % 256) ∧
    (∀ h1 h2 : String, strBytes h1 = strBytes h2 → shardIdx h1 = shardIdx h2) ∧
    (∀ h : String, (shardIdx h).val < 256) ∧
    (∀ (m : RouteManager) (h t : String) (m' : RouteManager),
      addRoute m h t = some m' →
      ∀ j : Fin routeShards, j ≠ shardIdx h → m'.shards j = m.shards j) ∧
    (∀ (m : RouteManager) (h : String) (j : Fin routeShards),
      j ≠ shardIdx h → (removeRoute m h).shards j = m.shards j) ∧
    (∀ (m : RouteManager) (h : String),
      getEntry m h = (m.shards (shardIdx h)).lookup h) ∧
    shardInv emptyManager ∧
    (∀ (m : RouteManager) (h t : String) (m' : RouteManager),
      shardInv m → addRoute m h t = some m' → shardInv m') ∧
    (∀ (m : RouteManager) (h : String),
      shardInv m → shardInv (removeRoute m h)) := by
  refine ⟨fun h => rfl, ?_, fun h => (shardIdx h).isLt, ?_, ?_,
    fun m h => rfl, ?_, ?_, ?_⟩
  · intro h1 h2 he
    apply Fin.ext
    show fnvHash (strBytes h1) % routeShards = fnvHash (strBytes h2) % routeShards
    rw [he]
  · intro m h t m' ha j hj
    unfold addRoute at ha
    cases hu : urlParse (normalizeTarget t) with
    | none => rw [hu] at ha; exact Option.noConfusion ha
    | some u =>
        rw [hu] at ha
        injection ha with ha2
        subst ha2
        exact Function.update_noteq hj _ _
  · intro m h j hj
    exact Function.update_noteq hj _ _
  · intro j pr hpr
    exact absurd hpr (List.not_mem_nil pr)
  · intro m h t m' hinv ha
    unfold addRoute at ha
    cases hu : urlParse (normalizeTarget t) with
    | none => rw [hu] at ha; exact Option.noConfusion ha
    | some u =>
        rw [hu] at ha
        injection ha with ha2
        subst ha2
        intro j pr hpr
        have hpr' : pr ∈ Function.update m.shards (shardIdx h)
            (mapInsert h ⟨u⟩ (m.shards (shardIdx h))) j := hpr
        by_cases hj : j = shardIdx h
        · subst hj
          rw [Function.update_same] at hpr'
          unfold mapInsert at hpr'
          rcases List.mem_cons.mp hpr' with hc | hc
          · rw [hc]
          · exact hinv _ pr (List.mem_of_mem_filter hc)
        · rw [Function.update_noteq hj] at hpr'
          exact hinv j pr hpr'
  · intro m h hinv j pr hpr
    have hpr' : pr ∈ Function.update m.shards (shardIdx h)
        (mapDelete h (m.shards (shardIdx h))) j := hpr
    by_cases hj : j = shardIdx h
    · subst hj
      rw [Function.update_same] at hpr'
      unfold mapDelete at hpr'
      exact hinv _ pr (List.mem_of_mem_filter hpr')
    · rw [Function.update_noteq hj] at hpr'
      exact hinv j pr hpr'

/-- C9 witness: the invariant transported through concrete operations. -/
theorem shard_selection_properties_witness :
    (shardIdx "alice.example.test").val < 256 ∧
    shardInv (removeRoute emptyManager "alice.example.test") :=
  ⟨shard_selection_properties.2.2.1 "alice.example.test",
   shard_selection_properties.2.2.2.2.2.2.2.2 emptyManager "alice.example.test"
     (by intro j pr hpr; exact absurd hpr (List.not_mem_nil pr))⟩

/-- C10: the route key is `user.zone`, independent of the port. With two
live forwards for the same user on distinct ports, the table holds the
single hostname entry of the later install, both forwards are recorded in
the bookkeeping, and cancelling either port removes the user's one route
while the other forward is still recorded as active. -/
theorem route_key_ignores_port (st : ServerState) (s1 s2 : Nat)
    (user zone : String) (pl1 pl2 : List Nat) (p1 p2 : Nat)
    (st1 st2 : ServerState)
    (hp1 : parseForwardPort pl1 = some p1)
    (hp2 : parseForwardPort pl2 = some p2)
    (hner : Nat.repr p1 ≠ Nat.repr p2)
    (hu1 : (addRoute st.routes (user ++ "." ++ zone)
        ("127.0.0.1:" ++ Nat.repr p1)).isSome = true)
    (hu2 : (addRoute st1.routes (user ++ "." ++ zone)
        ("127.0.0.1:" ++ Nat.repr p2)).isSome = true)
    (hst1 : st1 = (handleTcpipForward st s1 user zone pl1 (some p1)).1)
    (hst2 : st2 = (handleTcpipForward st1 s2 user zone pl2 (some p2)).1) :
    getEntry st2.routes (user ++ "." ++ zone)
      = some ⟨normalizeTarget ("127.0.0.1:" ++ Nat.repr p2)⟩ ∧
    loadTunnel (tunnelKey user p1) st2.activeTunnels
      = some ⟨tunnelKey user p1, user ++ "." ++ zone, s1⟩ ∧
    loadTunnel (tunnelKey user p2) st2.activeTunnels
      = some ⟨tunnelKey user p2, user ++ "." ++ zone, s2⟩ ∧
    (getEntry (handleCancelForward st2 user pl1).1.routes (user ++ "." ++ zone)
        = none ∧
      loadTunnel (tunnelKey user p2)
          (handleCancelForward st2 user pl1).1.activeTunnels
        = some ⟨tunnelKey user p2, user ++ "." ++ zone, s2⟩) ∧
    (getEntry (handleCancelForward st2 user pl2).1.routes (user ++ "." ++ zone)
        = none ∧
      loadTunnel (tunnelKey user p1)
          (handleCancelForward st2 user pl2).1.activeTunnels
        = some ⟨tunnelKey user p1, user ++ "." ++ zone, s1⟩) := by
  have hkne : tunnelKey user p1 ≠ tunnelKey user p2 := tunnelKey_ne user hner
  cases ha1 : addRoute st.routes (user ++ "." ++ zone)
      ("127.0.0.1:" ++ Nat.repr p1) with
  | none => rw [ha1] at hu1; exact absurd hu1 (by simp)
  | some rm1 =>
  have e1 := handleTcpipForward_parsed st s1 user zone pl1 p1 p1 hp1
  rw [ha1] at e1
  have hst1' : st1 = { st with
      routes := rm1,
      activeTunnels := storeTunnel (tunnelKey user p1) (user ++ "." ++ zone)
        s1 st.activeTunnels,
      listeners := st.listeners ++ [⟨st.nextListenerId, p1, true⟩],
      nextListenerId := st.nextListenerId + 1 } := by rw [hst1, e1]
  cases ha2 : addRoute st1.routes (user ++ "." ++ zone)
      ("127.0.0.1:" ++ Nat.repr p2) with
  | none => rw [ha2] at hu2; exact absurd hu2 (by simp)
  | some rm2 =>
  have e2 := handleTcpipForward_parsed st1 s2 user zone pl2 p2 p2 hp2
  rw [ha2] at e2
  have hst2' : st2 = { st1 with
      routes := rm2,
      activeTunnels := storeTunnel (tunnelKey user p2) (user ++ "." ++ zone)
        s2 st1.activeTunnels,
      listeners := st1.listeners ++ [⟨st1.nextListenerId, p2, true⟩],
      nextListenerId := st1.nextListenerId + 1 } := by rw [hst2, e2]
  have hload1 : loadTunnel (tunnelKey user p1) st2.activeTunnels
      = some ⟨tunnelKey user p1, user ++ "." ++ zone, s1⟩ := by
    rw [hst2']
    refine (loadTunnel_storeTunnel_ne (user ++ "." ++ zone) s2
      st1.activeTunnels hkne).trans ?_
    rw [hst1']
    exact loadTunnel_storeTunnel _ _ _ _
  have hload2 : loadTunnel (tunnelKey user p2) st2.activeTunnels
      = some ⟨tunnelKey user p2, user ++ "." ++ zone, s2⟩ := by
    rw [hst2']
    exact loadTunnel_storeTunnel _ _ _ _
  have ec1 : handleCancelForward st2 user pl1
      = ({ st2 with
            routes := removeRoute st2.routes (user ++ "." ++ zone),
            activeTunnels := deleteTunnel (tunnelKey user p1)
              st2.activeTunnels }, (true, [])) := by
    simp only [handleCancelForward, hp1, hload1]
  have ec2 : handleCancelForward st2 user pl2
      = ({ st2 with
            routes := removeRoute st2.routes (user ++ "." ++ zone),
            activeTunnels := deleteTunnel (tunnelKey user p2)
              st2.activeTunnels }, (true, [])) := by
    simp only [handleCancelForward, hp2, hload2]
  refine ⟨?_, hload1, hload2, ⟨?_, ?_⟩, ⟨?_, ?_⟩⟩
  · rw [hst2']
    exact getEntry_addRoute ha2
  · rw [ec1]
    exact getEntry_removeRoute _ _
  · rw [ec1]
    exact (loadTunnel_deleteTunnel_ne _ (Ne.symm hkne)).trans hload2
  · rw [ec2]
    exact getEntry_removeRoute _ _
  · rw [ec2]
    exact (loadTunnel_deleteTunnel_ne _ hkne).trans hload1

/-- C10 witness: user `alice` with forwards on ports 1001 and 1002; the
table holds the single `alice.example.test` route with the later target,
and cancelling port 1001 removes it while port 1002 stays recorded. -/
theorem route_key_ignores_port_witness :
    getEntry (handleTcpipForward
        (handleTcpipForward initialState 1 "alice" "example.test"
          [0, 0, 0, 0, 0, 0, 3, 233] (some 1001)).1
        2 "alice" "example.test"
        [0, 0, 0, 0, 0, 0, 3, 234] (some 1002)).1.routes
      ("alice" ++ "." ++ "example.test")
      = some ⟨normalizeTarget ("127.0.0.1:" ++ Nat.repr 1002)⟩ ∧
    (getEntry (handleCancelForward
        (handleTcpipForward
          (handleTcpipForward initialState 1 "alice" "example.test"
            [0, 0, 0, 0, 0, 0, 3, 233] (some 1001)).1
          2 "alice" "example.test"
          [0, 0, 0, 0, 0, 0, 3, 234] (some 1002)).1
        "alice" [0, 0, 0, 0, 0, 0, 3, 233]).1.routes
        ("alice" ++ "." ++ "example.test") = none ∧
      loadTunnel (tunnelKey "alice" 1002)
          (handleCancelForward
            (handleTcpipForward
              (handleTcpipForward initialState 1 "alice" "example.test"
                [0, 0, 0, 0, 0, 0, 3, 233] (some 1001)).1
              2 "alice" "example.test"
              [0, 0, 0, 0, 0, 0, 3, 234] (some 1002)).1
            "alice" [0, 0, 0, 0, 0, 0, 3, 233]).1.activeTunnels
        = some ⟨tunnelKey "alice" 1002, "alice" ++ "." ++ "example.test", 2⟩) :=
  have happ := route_key_ignores_port initialState 1 2 "alice" "example.test"
    [0, 0, 0, 0, 0, 0, 3, 233] [0, 0, 0, 0, 0, 0, 3, 234] 1001 1002
    (handleTcpipForward initialState 1 "alice" "example.test"
      [0, 0, 0, 0, 0, 0, 3, 233] (some 1001)).1
    (handleTcpipForward
      (handleTcpipForward initialState 1 "alice" "example.test"
        [0, 0, 0, 0, 0, 0, 3, 233] (some 1001)).1
      2 "alice" "example.test"
      [0, 0, 0, 0, 0, 0, 3, 234] (some 1002)).1
    (by decide) (by decide) (by decide) (by decide) (by decide) rfl rfl
  ⟨happ.1, happ.2.2.2.1⟩

end Tunnelfy
